import Mathlib

/-!
Shallow embedding of the calibration-frontend capture/session subsystem:
the Redux slice `backgroundSelectionSlice.ts`, the WebSocket service
`websocket.ts`, and the page-level handlers of `BackgroundSelectionPage.tsx`.
Browser primitives (canvas encoding, timers, the socket object) are modelled
as explicit data; timing-dependent inputs (the current video frame, the
wall-clock timestamp) are passed as parameters.
-/

namespace CalibFrontend

/-- Input mode of a capture session (`'camera' | 'file'`). -/
inductive InputMode where
  | camera
  | file
deriving DecidableEq, Repr

/-- Connection status field of the Redux slice
(`'disconnected' | 'connecting' | 'connected' | 'error'`). -/
inductive ConnStatus where
  | disconnected
  | connecting
  | connected
  | error
deriving DecidableEq, Repr

/-- `currentFrame` field: `{ image: string; frameCount: number }`. -/
structure CurrentFrame where
  image : String
  frameCount : Nat
deriving DecidableEq, Repr

/-- Camel-case metadata stored on a saved background
(`{ width, height, frameCount }`). -/
structure BgMeta where
  width : Nat
  height : Nat
  frameCount : Nat
deriving DecidableEq, Repr

/-- The `savedBackground` artifact held in Redux state:
image, originating session id, save timestamp, optional metadata. -/
structure SavedBackground where
  image : String
  sessionId : String
  savedAt : String
  metadata : Option BgMeta
deriving DecidableEq, Repr

/-- The full `BackgroundSelectionState` of `backgroundSelectionSlice.ts`. -/
structure RState where
  inputMode : Option InputMode
  selectedFileName : Option String
  sessionId : Option String
  isSessionActive : Bool
  currentFrame : Option CurrentFrame
  savedBackground : Option SavedBackground
  isProcessing : Bool
  isLoading : Bool
  error : Option String
  success : Option String
  hasStartedProcessing : Bool
  connectionStatus : ConnStatus
  processingStatus : String
  hasBackground : Bool
deriving DecidableEq, Repr

/-- `initialState` of the slice. -/
def initialState : RState :=
  { inputMode := none
    selectedFileName := none
    sessionId := none
    isSessionActive := false
    currentFrame := none
    savedBackground := none
    isProcessing := false
    isLoading := false
    error := none
    success := none
    hasStartedProcessing := false
    connectionStatus := ConnStatus.disconnected
    processingStatus := "Not started"
    hasBackground := false }

/-- Payload of a `frame_processed` server event (the fields the reducer reads). -/
structure FrameEv where
  processed_frame : String
  frame_count : Nat
  status : String
  has_background : Bool
deriving DecidableEq, Repr

/-- Snake-case metadata as delivered by the backend on `background_saved`. -/
structure BgMetaSnake where
  width : Nat
  height : Nat
  frame_count : Nat
deriving DecidableEq, Repr

/-- Payload of a `background_saved` server event. -/
structure BgSavedEv where
  message : String
  background_image : String
  session_id : String
  metadata : Option BgMetaSnake
deriving DecidableEq, Repr

/-- Reducer `setInputMode`. -/
def setInputMode (s : RState) (m : Option InputMode) : RState :=
  { s with inputMode := m }

/-- Reducer `setSelectedFileName`. -/
def setSelectedFileName (s : RState) (n : Option String) : RState :=
  { s with selectedFileName := n }

/-- Reducer `setLoading`. -/
def setLoading (s : RState) (b : Bool) : RState :=
  { s with isLoading := b }

/-- Reducer `clearError`. -/
def clearError (s : RState) : RState :=
  { s with error := none }

/-- Reducer `clearSuccess`. -/
def clearSuccess (s : RState) : RState :=
  { s with success := none }

/-- Reducer `setConnectionStatus`. -/
def setConnectionStatus (s : RState) (c : ConnStatus) : RState :=
  { s with connectionStatus := c }

/-- Reducer `handleConnected`. -/
def handleConnected (s : RState) : RState :=
  { s with connectionStatus := ConnStatus.connected, error := none }

/-- Reducer `handleDisconnected`: sets status disconnected and clears the
two active flags; it touches nothing else. -/
def handleDisconnected (s : RState) : RState :=
  { s with connectionStatus := ConnStatus.disconnected
           isSessionActive := false
           isProcessing := false }

/-- Reducer `handleSessionStarted`: adopts the server-issued session id. -/
def handleSessionStarted (s : RState) (session_id : String) : RState :=
  { s with sessionId := some session_id
           isSessionActive := true
           hasStartedProcessing := true
           isLoading := false
           error := none
           processingStatus := "Session started" }

/-- Reducer `handleFrameProcessed`: stores the processed frame, status text
and the server-reported `has_background` flag. -/
def handleFrameProcessed (s : RState) (p : FrameEv) : RState :=
  { s with currentFrame := some { image := p.processed_frame, frameCount := p.frame_count }
           isProcessing := true
           processingStatus := p.status
           hasBackground := p.has_background
           error := none }

/-- Reducer `handleBackgroundSaved`: stores the saved background, converting
snake_case metadata to camelCase. `new Date().toISOString()` is passed in as
the `now` parameter. -/
def handleBackgroundSaved (s : RState) (p : BgSavedEv) (now : String) : RState :=
  { s with success := some p.message
           isLoading := false
           savedBackground := some
             { image := p.background_image
               sessionId := p.session_id
               savedAt := now
               metadata := p.metadata.map fun m =>
                 { width := m.width, height := m.height, frameCount := m.frame_count } } }

/-- Reducer `handleBackgroundUpdated`. -/
def handleBackgroundUpdated (s : RState) (message : String) : RState :=
  { s with success := some message, processingStatus := "Background updated" }

/-- Reducer `handleWebSocketError`. -/
def handleWebSocketError (s : RState) (message : String) : RState :=
  { s with error := some message, isLoading := false, processingStatus := "Error occurred" }

/-- Reducer `startSessionRequest`. -/
def startSessionRequest (s : RState) : RState :=
  { s with isLoading := true, error := none, processingStatus := "Starting session..." }

/-- Reducer `saveBackgroundRequest`. -/
def saveBackgroundRequest (s : RState) : RState :=
  { s with isLoading := true, error := none, processingStatus := "Saving background..." }

/-- Reducer `resetSession`: resets session fields and counters but, per the
source comment, keeps `savedBackground` for calibration. -/
def resetSession (s : RState) : RState :=
  { s with sessionId := none
           isSessionActive := false
           currentFrame := none
           isProcessing := false
           hasStartedProcessing := false
           hasBackground := false
           processingStatus := "Not started"
           error := none
           success := none }

/-- Reducer `clearSavedBackground`. -/
def clearSavedBackground (s : RState) : RState :=
  { s with savedBackground := none, success := none }

/-- Reducer `resetAll`: returns `initialState`. -/
def resetAll (_s : RState) : RState :=
  initialState

/-- One action per reducer of the slice, with its payload. -/
inductive Action where
  | setInputMode (m : Option InputMode)
  | setSelectedFileName (n : Option String)
  | setLoading (b : Bool)
  | clearError
  | clearSuccess
  | setConnectionStatus (c : ConnStatus)
  | handleConnected
  | handleDisconnected
  | handleSessionStarted (session_id : String)
  | handleFrameProcessed (p : FrameEv)
  | handleBackgroundSaved (p : BgSavedEv) (now : String)
  | handleBackgroundUpdated (message : String)
  | handleWebSocketError (message : String)
  | startSessionRequest
  | saveBackgroundRequest
  | resetSession
  | clearSavedBackground
  | resetAll
deriving DecidableEq, Repr

/-- Dispatch: apply one action through its reducer. -/
def applyAction (s : RState) : Action → RState
  | Action.setInputMode m => setInputMode s m
  | Action.setSelectedFileName n => setSelectedFileName s n
  | Action.setLoading b => setLoading s b
  | Action.clearError => clearError s
  | Action.clearSuccess => clearSuccess s
  | Action.setConnectionStatus c => setConnectionStatus s c
  | Action.handleConnected => handleConnected s
  | Action.handleDisconnected => handleDisconnected s
  | Action.handleSessionStarted sid => handleSessionStarted s sid
  | Action.handleFrameProcessed p => handleFrameProcessed s p
  | Action.handleBackgroundSaved p now => handleBackgroundSaved s p now
  | Action.handleBackgroundUpdated m => handleBackgroundUpdated s m
  | Action.handleWebSocketError m => handleWebSocketError s m
  | Action.startSessionRequest => startSessionRequest s
  | Action.saveBackgroundRequest => saveBackgroundRequest s
  | Action.resetSession => resetSession s
  | Action.clearSavedBackground => clearSavedBackground s
  | Action.resetAll => resetAll s

/-- A socket.io client socket, reduced to the fields the service reads:
its transport-level id and its connected flag. -/
structure Socket where
  id : String
  connected : Bool
deriving DecidableEq, Repr

/-- State of the `WebSocketService` singleton of `websocket.ts`:
`socket`, `frameInterval` and `videoElement`, each nullable. The interval
handle is its period in ms; the video element is reduced to presence. -/
structure WsState where
  socket : Option Socket
  frameInterval : Option Nat
  videoElement : Option Unit
deriving DecidableEq, Repr

/-- Client-to-server wire events the subsystem can emit. -/
inductive WireEvent where
  | startSession (input_mode : InputMode)
  | processFrame (frame : String)
  | saveBackground
  | updateBackground (frame : String)
  | endSession (session_id : Option String)
deriving DecidableEq, Repr

/-- `this.socket?.connected ?? false` (method `isConnected`). -/
def isConnected (w : WsState) : Bool :=
  (w.socket.map Socket.connected).getD false

/-- Method `emit`: sends the event only when the socket is connected;
otherwise logs a warning and sends nothing. Returns the wire traffic. -/
def wsEmit (w : WsState) (e : WireEvent) : List WireEvent :=
  if isConnected w then [e] else []

/-- Method `stopFrameCapture`: clears the interval handle and drops the
video element; the socket is untouched. -/
def stopFrameCapture (w : WsState) : WsState :=
  { w with frameInterval := none, videoElement := none }

/-- The `session_id` value placed in the `end_session` payload:
`this.socket?.id` (undefined when no socket exists). -/
def endSessionPayload (w : WsState) : Option String :=
  w.socket.map Socket.id

/-- Method `endSession`: emits `end_session` carrying the socket's own id. -/
def endSession (w : WsState) : List WireEvent :=
  wsEmit w (WireEvent.endSession (endSessionPayload w))

/-- Result of `disconnect`: the new service state, the wire traffic
produced, and whether `socket.disconnect()` was invoked on the link. -/
structure DiscResult where
  state : WsState
  wire : List WireEvent
  linkClosed : Bool
deriving DecidableEq, Repr

/-- Method `disconnect`: stops frame capture; if the socket is connected,
sends the session-end notification and closes the link; finally nulls the
socket reference unconditionally. No path throws. -/
def wsDisconnect (w : WsState) : DiscResult :=
  let w1 := stopFrameCapture w
  if isConnected w1 then
    { state := { w1 with socket := none }
      wire := endSession w1
      linkClosed := true }
  else
    { state := { w1 with socket := none }
      wire := []
      linkClosed := false }

/-- Method `saveBackground`: `emit('save_background', {})`. -/
def wsSaveBackground (w : WsState) : List WireEvent :=
  wsEmit w WireEvent.saveBackground

/-- Method `startSession`: `emit('start_session', { input_mode })`. -/
def wsStartSession (w : WsState) (mode : InputMode) : List WireEvent :=
  wsEmit w (WireEvent.startSession mode)

/-- Method `updateBackground`: `emit('update_background', { frame })`. -/
def wsUpdateBackground (w : WsState) (frame : String) : List WireEvent :=
  wsEmit w (WireEvent.updateBackground frame)

/-- Abstraction of `canvas.toDataURL(mime, quality)` after drawing the
current video frame: an injective encoding tagged with the fixed mime type
and quality the code passes. -/
def toDataURL (mime : String) (quality : String) (content : String) : String :=
  mime ++ ";" ++ quality ++ ";" ++ content

/-- Retry delay (ms) when the video has no frame ready
(`setTimeout(captureLoop, 100)`). -/
def notReadyRetryMs : Nat := 100

/-- Retry delay (ms) when the 2d context is unavailable
(`setTimeout(captureLoop, 1000)`). -/
def ctxRetryMs : Nat := 1000

/-- Fixed rescheduling period of the capture loop
(`setTimeout(captureLoop, 1000)`, source comment: 1 FPS = 1000ms). -/
def tickPeriodMs : Nat := 1000

/-- The loop's target rate in Hz (1 FPS per the source comment). -/
def targetRateHz : Nat := 1

/-- Environment of one execution of `captureLoop` in
`BackgroundSelectionPage.tsx`: the guard inputs it reads and the
failure points inside the tick. `videoReady` is
`video.readyState === video.HAVE_ENOUGH_DATA`; `encodeOk` is false when
`drawImage`/`toDataURL` throws. `frame` is the video content sampled. -/
structure TickEnv where
  capturing : Bool
  videoPresent : Bool
  wsConnected : Bool
  videoReady : Bool
  ctxAvail : Bool
  encodeOk : Bool
  frame : String
deriving DecidableEq, Repr

/-- One execution of `captureLoop`: the frame emission (if any) and the
delay of the rescheduled tick (`none` means the loop self-terminates). -/
def captureTick (e : TickEnv) : Option WireEvent × Option Nat :=
  if !e.capturing || !e.videoPresent || !e.wsConnected then
    (none, none)
  else if !e.videoReady then
    (none, some notReadyRetryMs)
  else if !e.ctxAvail then
    (none, some ctxRetryMs)
  else if e.encodeOk then
    (some (WireEvent.processFrame (toDataURL "image/jpeg" "0.8" e.frame)), some tickPeriodMs)
  else
    (none, some tickPeriodMs)

/-- Combined state of `BackgroundSelectionPage`: the Redux slice state, the
WebSocket service state, and the page-local React state the protocol reads
(`isCapturing`, `localStream` presence, `frameCount`, `fps`, plus the pending
fixed 500 ms delay inside `startCapture`/`handleVideoUpload` between
`startSession` and `setIsCapturing(true)`). -/
structure App where
  rs : RState
  ws : WsState
  isCapturing : Bool
  localStream : Bool
  frameCount : Nat
  fps : Nat
  awaitingStartDelay : Bool
deriving DecidableEq, Repr

/-- The operations the page performs: one per server-event listener
registered in the setup effect, one per user-triggered handler, and the
two halves of the start-capture flow separated by its fixed 500 ms wait.
`resetAll` is not among them: no component dispatches it. -/
inductive PageOp where
  | serverConnected
  | serverSessionStarted (session_id : String)
  | serverFrameProcessed (p : FrameEv) (newFps : Nat)
  | serverBackgroundSaved (p : BgSavedEv) (now : String)
  | serverBackgroundUpdated (message : String)
  | serverError (message : String)
  | startCaptureBegin (mode : InputMode)
  | startCaptureDelay
  | captureLoopTick (videoPresent videoReady ctxAvail encodeOk : Bool) (frame : String)
  | stopCapture
  | saveBackground
  | updateBackground (videoPresent ctxAvail : Bool) (frame : String)
  | proceedToCalibration
  | redo
deriving Repr

/-- `stopCapture`: clears the capturing flag and pending tick, stops the
local stream tracks, and calls `wsService.stopFrameCapture()`. It does not
touch the session or the socket. -/
def pageStopCapture (a : App) : App :=
  { a with isCapturing := false
           localStream := false
           ws := stopFrameCapture a.ws }

/-- `handleSaveBackground`: rejects locally (alert, no dispatch, no emit)
when the socket is not connected or no session id is present; otherwise
dispatches `saveBackgroundRequest` and emits `save_background`. The
`hasBackground` flag is not consulted here (only the button disabling
reads it). -/
def pageSaveBackground (a : App) : App × List WireEvent :=
  if !isConnected a.ws || a.rs.sessionId.isNone then
    (a, [])
  else
    ({ a with rs := saveBackgroundRequest a.rs }, wsSaveBackground a.ws)

/-- `handleUpdateBackground`: rejects when not connected or no video
element; otherwise encodes the current frame and emits `update_background`
(skipped silently when the 2d context is unavailable). -/
def pageUpdateBackground (a : App) (videoPresent ctxAvail : Bool) (frame : String) :
    App × List WireEvent :=
  if !isConnected a.ws || !videoPresent then
    (a, [])
  else if ctxAvail then
    (a, wsUpdateBackground a.ws (toDataURL "image/jpeg" "0.8" frame))
  else
    (a, [])

/-- First half of `startCapture`/`handleVideoUpload` (media acquired):
acquires the stream, dispatches `startSessionRequest` and emits
`start_session`, then enters the fixed 500 ms wait. -/
def pageStartCaptureBegin (a : App) (mode : InputMode) : App × List WireEvent :=
  ({ a with rs := startSessionRequest a.rs
            localStream := true
            awaitingStartDelay := true },
   wsStartSession a.ws mode)

/-- Second half of the start flow: the fixed
`await new Promise(resolve => setTimeout(resolve, 500))` elapses and
`setIsCapturing(true)` runs — whether or not `session_started` has
arrived in the meantime. -/
def pageStartCaptureDelay (a : App) : App :=
  if a.awaitingStartDelay then
    { a with isCapturing := true, awaitingStartDelay := false }
  else
    a

/-- One capture-loop tick at page level: reads the capturing flag and the
socket from the current state and runs `captureTick`. -/
def pageCaptureTick (a : App) (videoPresent videoReady ctxAvail encodeOk : Bool)
    (frame : String) : App × List WireEvent :=
  let r := captureTick
    { capturing := a.isCapturing
      videoPresent := videoPresent
      wsConnected := isConnected a.ws
      videoReady := videoReady
      ctxAvail := ctxAvail
      encodeOk := encodeOk
      frame := frame }
  (a, r.1.toList)

/-- `handleProceedToCalibration` (no-throw path): `stopCapture()`, then
`wsService.disconnect()`, then dispatch `handleDisconnected`. -/
def pageProceedToCalibration (a : App) : App × List WireEvent :=
  let a1 := pageStopCapture a
  let d := wsDisconnect a1.ws
  ({ a1 with ws := d.state, rs := handleDisconnected a1.rs }, d.wire)

/-- `handleRedoBackground` (no-throw path): `stopCapture()`, disconnect if
connected, dispatch `clearSavedBackground` then `resetSession`, and reset
the local frame counter and fps readout. -/
def pageRedo (a : App) : App × List WireEvent :=
  let a1 := pageStopCapture a
  let d := if isConnected a1.ws then wsDisconnect a1.ws
           else { state := a1.ws, wire := [], linkClosed := false }
  ({ a1 with ws := d.state
             rs := resetSession (clearSavedBackground a1.rs)
             frameCount := 0
             fps := 0 },
   d.wire)

/-- Apply one page operation; returns the new state and the wire traffic. -/
def applyPageOp (a : App) : PageOp → App × List WireEvent
  | PageOp.serverConnected => ({ a with rs := handleConnected a.rs }, [])
  | PageOp.serverSessionStarted sid => ({ a with rs := handleSessionStarted a.rs sid }, [])
  | PageOp.serverFrameProcessed p newFps =>
      ({ a with rs := handleFrameProcessed a.rs p
                frameCount := p.frame_count
                fps := newFps }, [])
  | PageOp.serverBackgroundSaved p now =>
      ({ a with rs := handleBackgroundSaved a.rs p now }, [])
  | PageOp.serverBackgroundUpdated m => ({ a with rs := handleBackgroundUpdated a.rs m }, [])
  | PageOp.serverError m => ({ a with rs := handleWebSocketError a.rs m }, [])
  | PageOp.startCaptureBegin mode => pageStartCaptureBegin a mode
  | PageOp.startCaptureDelay => (pageStartCaptureDelay a, [])
  | PageOp.captureLoopTick vp vr ca eo f => pageCaptureTick a vp vr ca eo f
  | PageOp.stopCapture => (pageStopCapture a, [])
  | PageOp.saveBackground => pageSaveBackground a
  | PageOp.updateBackground vp ca f => pageUpdateBackground a vp ca f
  | PageOp.proceedToCalibration => pageProceedToCalibration a
  | PageOp.redo => pageRedo a

/-- Classifier: is this operation the redo request? -/
def isRedo : PageOp → Bool
  | PageOp.redo => true
  | _ => false

/-- The four teardown steps of spec §4.4, as realized by
`handleProceedToCalibration`/`handleRedoBackground`: `stopCapture()`
performs the loop cancellation and the media release, then
`wsService.disconnect()` performs the session-end notification and the
link close. -/
inductive Step where
  | cancelLoop
  | releaseMedia
  | notifyEnd
  | closeTransport
deriving DecidableEq, Repr

/-- The order in which the code runs the four steps on its teardown path. -/
def teardownOrder : List Step :=
  [Step.cancelLoop, Step.releaseMedia, Step.notifyEnd, Step.closeTransport]

/-- Run steps in sequence under the single surrounding `try`: a throwing
step aborts to the `catch` handler (which only logs and navigates), so the
remaining steps are not executed. Returns the steps that were reached. -/
def execUntil (failAt : Option Step) : List Step → List Step
  | [] => []
  | st :: rest => if failAt = some st then [st] else st :: execUntil failAt rest

/-- Steps the proceed-to-calibration teardown reaches when the given step
throws (or none does). -/
def proceedTeardownSteps (failAt : Option Step) : List Step :=
  execUntil failAt teardownOrder

/-- Fixture: a connected socket with transport id `sock-1`. -/
def sock1 : Socket := { id := "sock-1", connected := true }

/-- Fixture: service state holding the connected socket `sock1`. -/
def ws1 : WsState := { socket := some sock1, frameInterval := none, videoElement := none }

/-- Fixture: page state right after a successful connect (before any
session has been started). -/
def appConnected : App :=
  { rs := handleConnected initialState
    ws := ws1
    isCapturing := false
    localStream := false
    frameCount := 0
    fps := 0
    awaitingStartDelay := false }

/-- Fixture: a `frame_processed` payload with the given count and flag. -/
def fev (n : Nat) (b : Bool) : FrameEv :=
  { processed_frame := "pf", frame_count := n, status := "Collecting frames", has_background := b }

/-- Fixture: Redux state after connect and `session_started{session_id:"s1"}`. -/
def rsSession : RState := handleSessionStarted (handleConnected initialState) "s1"

/-- Fixture: a first `background_saved` payload. -/
def bg1ev : BgSavedEv :=
  { message := "Background saved", background_image := "img1", session_id := "s1", metadata := none }

/-- Fixture: a second, different `background_saved` payload. -/
def bg2ev : BgSavedEv :=
  { message := "Background saved", background_image := "img2", session_id := "s1", metadata := none }

/-- Fixture: state reached from `initialState` by connect, session start,
a background-bearing processed frame, and a save acknowledgment. -/
def rsSaved : RState :=
  handleBackgroundSaved (handleFrameProcessed rsSession (fev 3 true)) bg1ev "t1"

/-! Theorems: the claims are settled below, one theorem per claim. -/

/-- Claim C3, counterexample: the claim says the explicit end/disconnect
transition clears the session identifier; but `handleDisconnected` leaves
`sessionId` untouched: from a state holding session id `s1`, it still holds
`s1` afterwards. -/
theorem c3_counterexample :
    (handleDisconnected rsSession).sessionId = some "s1" ∧
    (handleDisconnected rsSession).sessionId ≠ none := by
  exact ⟨rfl, by decide⟩

/-- Claim C3, amended: `handleDisconnected` sets the connection status to
disconnected and the active/processing flags to false, and preserves both
`savedBackground` and — contrary to the original claim — `sessionId`. -/
theorem c3_disconnected_preserves_saved (s : RState) :
    (handleDisconnected s).connectionStatus = ConnStatus.disconnected ∧
    (handleDisconnected s).isSessionActive = false ∧
    (handleDisconnected s).isProcessing = false ∧
    (handleDisconnected s).savedBackground = s.savedBackground ∧
    (handleDisconnected s).sessionId = s.sessionId :=
  ⟨rfl, rfl, rfl, rfl, rfl⟩

/-- Claim C9: after any `frame_processed` event, `hasBackground` equals
exactly that event's `has_background` flag, whatever the prior event
history; and in the three-event scenario false, false, true it becomes
true only after the third event. -/
theorem c9_hasBackground_tracks_flag :
    (∀ (s : RState) (pre : List FrameEv) (ev : FrameEv),
      ((pre ++ [ev]).foldl handleFrameProcessed s).hasBackground = ev.has_background) ∧
    rsSession.hasBackground = false ∧
    (handleFrameProcessed rsSession (fev 1 false)).hasBackground = false ∧
    (handleFrameProcessed (handleFrameProcessed rsSession (fev 1 false)) (fev 2 false)).hasBackground = false ∧
    (handleFrameProcessed (handleFrameProcessed (handleFrameProcessed rsSession (fev 1 false)) (fev 2 false)) (fev 3 true)).hasBackground = true := by
  refine ⟨?_, rfl, rfl, rfl, rfl⟩
  intro s pre ev
  rw [List.foldl_append]
  rfl

/-- Classifier for C4: the reducers whose body writes `savedBackground`
(`handleBackgroundSaved`, `clearSavedBackground`, `resetAll`). -/
def touchesSavedBackground : Action → Bool
  | Action.handleBackgroundSaved _ _ => true
  | Action.clearSavedBackground => true
  | Action.resetAll => true
  | _ => false

/-- Claim C4, counterexample: the claim says every operation other than the
explicit clear and the full reset leaves a non-null `savedBackground`
unchanged; but a second `background_saved` acknowledgment — reachable from
`initialState` — overwrites it with a different artifact. -/
theorem c4_counterexample :
    rsSaved.savedBackground =
      some { image := "img1", sessionId := "s1", savedAt := "t1", metadata := none } ∧
    (applyAction rsSaved (Action.handleBackgroundSaved bg2ev "t2")).savedBackground ≠
      rsSaved.savedBackground ∧
    Action.handleBackgroundSaved bg2ev "t2" ≠ Action.clearSavedBackground ∧
    Action.handleBackgroundSaved bg2ev "t2" ≠ Action.resetAll := by
  refine ⟨rfl, by decide, by decide, by decide⟩

/-- Claim C4, amended: every reducer other than `clearSavedBackground`,
`resetAll` and `handleBackgroundSaved` leaves `savedBackground` unchanged;
`handleBackgroundSaved` itself replaces it with the newly acknowledged
artifact (so it is overwritable by a further save acknowledgment, not
immutable). -/
theorem c4_saved_background_preserved (s : RState) (a : Action)
    (h : touchesSavedBackground a = false) :
    (applyAction s a).savedBackground = s.savedBackground := by
  cases a <;> first
    | rfl
    | simp [touchesSavedBackground] at h

/-- Witness for C4's amended theorem at `clearError` on `initialState`. -/
theorem c4_saved_background_preserved_witness :
    (applyAction initialState Action.clearError).savedBackground =
      initialState.savedBackground :=
  c4_saved_background_preserved initialState Action.clearError rfl

/-- Fixture: page state connected with an active session `s1` and
`hasBackground` still false. -/
def appSession : App := { appConnected with rs := handleSessionStarted appConnected.rs "s1" }

/-- Claim C2, counterexample: the claim says save-background is a no-op
whenever `hasBackground` is false; but with a connected socket and session
id present, `handleSaveBackground` emits `save_background` and mutates
state (`saveBackgroundRequest`) even though `hasBackground` is false — the
flag is enforced only by disabling the button, not in the handler. -/
theorem c2_counterexample :
    appSession.rs.hasBackground = false ∧
    (pageSaveBackground appSession).2 = [WireEvent.saveBackground] ∧
    (pageSaveBackground appSession).1 ≠ appSession := by
  refine ⟨rfl, by decide, by decide⟩

/-- Claim C2, amended: save-background sends no wire event and changes no
state when the socket is not connected or the session identifier is
absent; an absent `hasBackground` alone does not suppress it. -/
theorem c2_save_noop_when_no_session (a : App)
    (h : isConnected a.ws = false ∨ a.rs.sessionId = none) :
    pageSaveBackground a = (a, []) := by
  unfold pageSaveBackground
  rcases h with h | h
  · simp [h]
  · simp [h]

/-- Witness for C2's amended theorem: before any session start,
`sessionId` is none and saving is a no-op. -/
theorem c2_save_noop_witness : pageSaveBackground appConnected = (appConnected, []) :=
  c2_save_noop_when_no_session appConnected (Or.inr rfl)

/-- Claim C1: after `startCapture` on a connected socket, once the fixed
500 ms wait elapses the capture flag is set and the very next tick emits
`process_frame` although no `session_started` acknowledgment has been
applied: `isSessionActive` is still false and `sessionId` still null at
the moment of emission. `startCapture` waits a fixed delay instead of the
acknowledgment its own comment announces, and the tick guard checks only
the capturing flag, the video element and the socket connection. -/
theorem c1_frame_emitted_before_ack :
    (pageStartCaptureBegin appConnected InputMode.camera).2 =
      [WireEvent.startSession InputMode.camera] ∧
    (pageStartCaptureDelay (pageStartCaptureBegin appConnected InputMode.camera).1).rs.isSessionActive = false ∧
    (pageStartCaptureDelay (pageStartCaptureBegin appConnected InputMode.camera).1).rs.sessionId = none ∧
    (pageCaptureTick (pageStartCaptureDelay (pageStartCaptureBegin appConnected InputMode.camera).1)
        true true true true "f0").2 =
      [WireEvent.processFrame (toDataURL "image/jpeg" "0.8" "f0")] := by
  refine ⟨by decide, rfl, rfl, by decide⟩

/-- Claim C7: `disconnect()` always nulls the socket reference; it emits
the session-end notification and closes the link exactly when the socket
was connected; when already disconnected it produces no wire traffic and
no link operation; and a second `disconnect` right after is a no-op on the
link. It is a total function: no path throws. -/
theorem c7_disconnect_safe (w : WsState) :
    (wsDisconnect w).state.socket = none ∧
    (wsDisconnect w).wire =
      (if isConnected w then [WireEvent.endSession (w.socket.map Socket.id)] else []) ∧
    (wsDisconnect w).linkClosed = isConnected w ∧
    (wsDisconnect (wsDisconnect w).state).wire = [] ∧
    (wsDisconnect (wsDisconnect w).state).linkClosed = false := by
  obtain ⟨sock, fi, ve⟩ := w
  cases sock with
  | none => exact ⟨rfl, rfl, rfl, rfl, rfl⟩
  | some s =>
    obtain ⟨i, c⟩ := s
    cases c
    · exact ⟨rfl, rfl, rfl, rfl, rfl⟩
    · exact ⟨rfl, rfl, rfl, rfl, rfl⟩

/-- Fixture: a connected socket whose transport id is `sock-9`. -/
def ws9 : WsState :=
  { socket := some { id := "sock-9", connected := true }, frameInterval := none, videoElement := none }

/-- Fixture: Redux state holding the server-issued session id `srv-1`. -/
def rs9 : RState := handleSessionStarted initialState "srv-1"

/-- Claim C10: the `end_session` payload's `session_id` is the socket's own
transport id (`this.socket?.id`), undefined when no socket exists — not the
server-issued identifier in application state: with socket id `sock-9` and
application session id `srv-1`, disconnect emits `end_session{sock-9}`. -/
theorem c10_end_session_uses_socket_id :
    (∀ w : WsState, endSession w =
      (if isConnected w then [WireEvent.endSession (w.socket.map Socket.id)] else [])) ∧
    (∀ w : WsState, (wsDisconnect w).wire =
      (if isConnected w then [WireEvent.endSession (w.socket.map Socket.id)] else [])) ∧
    endSessionPayload { socket := none, frameInterval := none, videoElement := none } = none ∧
    (wsDisconnect ws9).wire = [WireEvent.endSession (some "sock-9")] ∧
    rs9.sessionId = some "srv-1" ∧
    (some "sock-9" : Option String) ≠ rs9.sessionId := by
  refine ⟨?_, ?_, rfl, by decide, rfl, by decide⟩
  · intro w
    obtain ⟨sock, fi, ve⟩ := w
    cases sock with
    | none => rfl
    | some s =>
      obtain ⟨i, c⟩ := s
      cases c <;> rfl
  · intro w
    obtain ⟨sock, fi, ve⟩ := w
    cases sock with
    | none => rfl
    | some s =>
      obtain ⟨i, c⟩ := s
      cases c <;> rfl

/-- Claim C5: the redo operation yields `savedBackground` null, frame
counters and processing status reset, and the machine back at idle (no
session id, not active); and among all page operations — server-event
handlers and user handlers alike (`resetAll` is dispatched by no
component) — redo is the only one that destroys a non-null
`savedBackground`. -/
theorem c5_redo_resets_and_is_only_destroyer :
    (∀ a : App,
      ((applyPageOp a PageOp.redo).1.rs.savedBackground = none ∧
       (applyPageOp a PageOp.redo).1.rs.sessionId = none ∧
       (applyPageOp a PageOp.redo).1.rs.isSessionActive = false ∧
       (applyPageOp a PageOp.redo).1.rs.currentFrame = none ∧
       (applyPageOp a PageOp.redo).1.rs.isProcessing = false ∧
       (applyPageOp a PageOp.redo).1.rs.hasBackground = false ∧
       (applyPageOp a PageOp.redo).1.rs.processingStatus = "Not started" ∧
       (applyPageOp a PageOp.redo).1.frameCount = 0 ∧
       (applyPageOp a PageOp.redo).1.fps = 0)) ∧
    (∀ (a : App) (op : PageOp), isRedo op = false →
      a.rs.savedBackground ≠ none →
      (applyPageOp a op).1.rs.savedBackground ≠ none) := by
  constructor
  · intro a
    exact ⟨rfl, rfl, rfl, rfl, rfl, rfl, rfl, rfl, rfl⟩
  · intro a op h hnn
    cases op with
    | serverConnected => exact hnn
    | serverSessionStarted sid => exact hnn
    | serverFrameProcessed p newFps => exact hnn
    | serverBackgroundSaved p now => simp [applyPageOp, handleBackgroundSaved]
    | serverBackgroundUpdated m => exact hnn
    | serverError m => exact hnn
    | startCaptureBegin mode => exact hnn
    | startCaptureDelay =>
        simp only [applyPageOp, pageStartCaptureDelay]
        split
        · exact hnn
        · exact hnn
    | captureLoopTick vp vr ca eo f => exact hnn
    | stopCapture => exact hnn
    | saveBackground =>
        simp only [applyPageOp, pageSaveBackground]
        split
        · exact hnn
        · exact hnn
    | updateBackground vp ca f =>
        simp only [applyPageOp, pageUpdateBackground]
        split
        · exact hnn
        · split
          · exact hnn
          · exact hnn
    | proceedToCalibration => exact hnn
    | redo => simp [isRedo] at h

/-- Fixture: page state with saved background, after the full scenario:
connect, session start, background-bearing frame, save acknowledgment. -/
def appSaved : App := { appConnected with rs := rsSaved }

/-- Witness for C5: from the saved-background state, `stopCapture` (a
non-redo operation) does not destroy the saved artifact. -/
theorem c5_redo_witness :
    (applyPageOp appSaved PageOp.stopCapture).1.rs.savedBackground ≠ none :=
  c5_redo_resets_and_is_only_destroyer.2 appSaved PageOp.stopCapture rfl (by decide)

/-- Fixture: page state in mid-capture on the connected socket. -/
def appCapturing : App := { appSession with isCapturing := true, localStream := true }

/-- Claim C6, counterexample: the claim says every teardown trigger —
including explicit stop — runs all four steps, and that later steps run
even when an earlier one throws. But the explicit-stop handler
(`stopCapture`) emits no session-end notification and leaves the socket
untouched (steps 3 and 4 never run), and a throw at the media-release
step aborts to the catch handler, skipping notify and close. -/
theorem c6_counterexample :
    (applyPageOp appCapturing PageOp.stopCapture).2 = [] ∧
    (applyPageOp appCapturing PageOp.stopCapture).1.ws.socket = some sock1 ∧
    proceedTeardownSteps (some Step.releaseMedia) = [Step.cancelLoop, Step.releaseMedia] ∧
    Step.notifyEnd ∉ proceedTeardownSteps (some Step.releaseMedia) ∧
    Step.closeTransport ∉ proceedTeardownSteps (some Step.releaseMedia) := by
  refine ⟨rfl, rfl, rfl, by decide, by decide⟩

/-- Claim C6, amended: on the proceed-to-calibration and redo paths the
four steps run in the fixed order, each exactly once, when none throws
(cancel loop, release media, notify end, close transport); a step that
throws aborts to the surrounding catch, so the steps after it are skipped
rather than still executed; and the explicit-stop trigger performs only
the first two steps, sending no notification and leaving the transport
open. -/
theorem c6_teardown_order :
    proceedTeardownSteps none = teardownOrder ∧
    (∀ st : Step, (proceedTeardownSteps none).count st = 1) ∧
    proceedTeardownSteps (some Step.cancelLoop) = [Step.cancelLoop] ∧
    proceedTeardownSteps (some Step.releaseMedia) = [Step.cancelLoop, Step.releaseMedia] ∧
    proceedTeardownSteps (some Step.notifyEnd) =
      [Step.cancelLoop, Step.releaseMedia, Step.notifyEnd] ∧
    proceedTeardownSteps (some Step.closeTransport) = teardownOrder ∧
    (∀ a : App, isConnected a.ws = true →
      (applyPageOp a PageOp.proceedToCalibration).2 =
        [WireEvent.endSession (a.ws.socket.map Socket.id)] ∧
      (applyPageOp a PageOp.proceedToCalibration).1.ws.socket = none ∧
      (applyPageOp a PageOp.proceedToCalibration).1.isCapturing = false ∧
      (applyPageOp a PageOp.proceedToCalibration).1.localStream = false) ∧
    (∀ a : App,
      (applyPageOp a PageOp.stopCapture).2 = [] ∧
      (applyPageOp a PageOp.stopCapture).1.ws.socket = a.ws.socket) := by
  refine ⟨rfl, ?_, rfl, rfl, rfl, rfl, ?_, ?_⟩
  · intro st
    cases st <;> rfl
  · intro a h
    obtain ⟨rs, ws, ic, ls, fc, fp, ad⟩ := a
    obtain ⟨sock, fi, ve⟩ := ws
    cases sock with
    | none => exact Bool.noConfusion h
    | some s =>
      obtain ⟨i, c⟩ := s
      cases c
      · exact Bool.noConfusion h
      · exact ⟨rfl, rfl, rfl, rfl⟩
  · intro a
    exact ⟨rfl, rfl⟩

/-- Witness for C6's amended theorem: proceed-to-calibration on the
mid-capture connected state emits exactly the session-end notification. -/
theorem c6_teardown_order_witness :
    (applyPageOp appCapturing PageOp.proceedToCalibration).2 =
      [WireEvent.endSession (appCapturing.ws.socket.map Socket.id)] :=
  (c6_teardown_order.2.2.2.2.2.2.1 appCapturing rfl).1

/-- Claim C8: under the loop preconditions, a tick with no frame ready
reschedules a 100 ms retry and emits nothing; a tick with a frame ready
and a drawing context always reschedules at the fixed 1000 ms period
(1 second / target rate of 1 Hz) whether or not the encode succeeded, and
emits the jpeg-0.8-encoded frame under `process_frame` exactly when it
did; a missing context skips the tick but still reschedules. -/
theorem c8_tick_schedule (e : TickEnv) (h1 : e.capturing = true)
    (h2 : e.videoPresent = true) (h3 : e.wsConnected = true) :
    (e.videoReady = false → captureTick e = (none, some notReadyRetryMs)) ∧
    (e.videoReady = true → e.ctxAvail = true →
      ((captureTick e).2 = some tickPeriodMs ∧
       (captureTick e).1 = (if e.encodeOk then
         some (WireEvent.processFrame (toDataURL "image/jpeg" "0.8" e.frame)) else none))) ∧
    (e.videoReady = true → e.ctxAvail = false →
      captureTick e = (none, some ctxRetryMs)) ∧
    notReadyRetryMs = 100 ∧
    tickPeriodMs = 1000 / targetRateHz := by
  obtain ⟨c, vp, wc, vr, ca, eo, f⟩ := e
  cases c
  · exact Bool.noConfusion h1
  · cases vp
    · exact Bool.noConfusion h2
    · cases wc
      · exact Bool.noConfusion h3
      · cases vr <;> cases ca <;> cases eo <;>
          refine ⟨fun hv => ?_, fun hv hc => ?_, fun hv hc => ?_, rfl, rfl⟩ <;>
          first
            | rfl
            | exact ⟨rfl, rfl⟩
            | exact Bool.noConfusion hv
            | exact Bool.noConfusion hc

/-- Fixture: a tick environment with all preconditions met and a frame
ready. -/
def envReady : TickEnv :=
  { capturing := true, videoPresent := true, wsConnected := true,
    videoReady := true, ctxAvail := true, encodeOk := true, frame := "f" }

/-- Witness for C8 on `envReady`: the tick emits and reschedules at the
fixed period. -/
theorem c8_tick_schedule_witness :
    (captureTick envReady).2 = some tickPeriodMs ∧
    (captureTick envReady).1 = (if envReady.encodeOk then
      some (WireEvent.processFrame (toDataURL "image/jpeg" "0.8" envReady.frame)) else none) :=
  (c8_tick_schedule envReady rfl rfl rfl).2.1 rfl rfl

end CalibFrontend
